import Mathlib

/-!
Verification development for the Requestarr caching-and-enrichment core.

Shallow embedding of:
  - the generic TTL cache (internal/cache, in notifications.go part of src),
  - the Rotten-Tomatoes fallback matcher (internal/services/ratings.go,
    function getRTRatings, lines 194-211),
  - the rating aggregator GetRatings (internal/services/ratings.go),
  - the ratings HTTP handler precondition check (internal/handlers/handlers.go),
  - the discovery enrichment pipeline (internal/services/tmdb.go).

Time is modelled as an explicit natural-number instant (seconds) passed to every
cache operation; Go calls time.Now() inside each operation.  Network calls are
modelled as oracle parameters (the outcome the call would produce), and the
number of outbound calls is tracked in an explicit environment so that claims
about "provider invoked / not invoked" are statable.
-/

namespace Requestarr

/-! ## Generic TTL cache (internal/cache).

Go source (notifications.go part of src, package cache):
  item{value interface, expiration time.Time}; Cache{items map, mu, ttl}.
  Get: found=false when key absent or time.Now().After(expiration) (strict).
  Set: expiration = now + c.ttl, unconditional overwrite.
  SetWithTTL: expiration = now + ttl.
  Delete: removes immediately.
  cleanup: every minute removes entries with now.After(expiration) (strict).
The map is modelled as a function from keys to optional items; the key and
value types are parameters (Go uses string keys and interface values). -/

structure CacheItem (α : Type) where
  value : α
  expiration : Nat
  deriving Repr, DecidableEq

structure Cache (κ α : Type) where
  items : κ → Option (CacheItem α)
  ttl : Nat

def Cache.get (c : Cache κ α) (now : Nat) (k : κ) : Option α × Bool :=
  match c.items k with
  | none => (none, false)
  | some it => if it.expiration < now then (none, false) else (some it.value, true)

/-- The value slot of a found, unexpired read (Go callers use the found flag
and then the value; this is the composite used by the services). -/
def Cache.lookup (c : Cache κ α) (now : Nat) (k : κ) : Option α :=
  (c.get now k).1

def Cache.setWithTTL [DecidableEq κ] (c : Cache κ α) (now : Nat) (k : κ) (v : α)
    (ttl : Nat) : Cache κ α :=
  { c with items := fun k' => if k' = k then some ⟨v, now + ttl⟩ else c.items k' }

def Cache.set [DecidableEq κ] (c : Cache κ α) (now : Nat) (k : κ) (v : α) : Cache κ α :=
  c.setWithTTL now k v c.ttl

def Cache.delete [DecidableEq κ] (c : Cache κ α) (k : κ) : Cache κ α :=
  { c with items := fun k' => if k' = k then none else c.items k' }

/-- The periodic sweep body: remove every entry whose expiration has passed
(strictly) at sweep time. -/
def Cache.cleanup (c : Cache κ α) (now : Nat) : Cache κ α :=
  { c with items := fun k =>
      match c.items k with
      | some it => if it.expiration < now then none else some it
      | none => none }

/-- The empty cache with a given default TTL (NewCache before any Set). -/
def Cache.empty (κ α : Type) (ttl : Nat) : Cache κ α :=
  { items := fun _ => none, ttl := ttl }

/-- main.go: appCache := cache.NewCache(10 * time.Minute), in seconds. -/
def defaultCacheTTL : Nat := 600

/-- tmdb.go getExistingMovieIDs / getExistingSeriesIDs: SetWithTTL(.., 2*time.Minute). -/
def existingIDsTTL : Nat := 120

/-! ## Fallback matcher (ratings.go, getRTRatings lines 194-211).

Go scans the Algolia hits once, left to right:
  if hitTitle == title:
    if year != "" and hitYear > 0 and Sprintf("%.0f", hitYear) == year:
      bestMatch = hit; break
    else if bestMatch == nil: bestMatch = hit
  else if bestMatch == nil: bestMatch = hit
A candidate year is modelled as an optional string: none when releaseYear is
absent or not positive, some of its rendered form otherwise. -/

structure MatchCandidate where
  title : String
  year : Option String
  deriving Repr, DecidableEq

/-- The condition under which the Go loop breaks at a candidate. -/
def isExactMatch (targetTitle targetYear : String) (c : MatchCandidate) : Bool :=
  c.title == targetTitle && targetYear != "" && c.year == some targetYear

/-- The single left-to-right scan, carrying the index of the current fallback
candidate; returns the index of the chosen hit. -/
def scanBest (t y : String) : List MatchCandidate → Nat → Option Nat → Option Nat
  | [], _, best => best
  | c :: rest, i, best =>
    if isExactMatch t y c then some i
    else scanBest t y rest (i + 1) (if best.isNone then some i else best)

def findBestMatch (cs : List MatchCandidate) (t y : String) : Option Nat :=
  scanBest t y cs 0 none

/-- Specification-side description (claim C1): the index of the first candidate
achieving an exact title+year match, if any. -/
def specFirstExactIdx (t y : String) : List MatchCandidate → Option Nat
  | [] => none
  | c :: rest =>
    if isExactMatch t y c then some 0
    else
      match specFirstExactIdx t y rest with
      | some j => some (j + 1)
      | none => none

theorem scanBest_eq (t y : String) (cs : List MatchCandidate) (i : Nat) (best : Option Nat) :
    scanBest t y cs i best =
      match specFirstExactIdx t y cs with
      | some j => some (i + j)
      | none =>
        match best with
        | some b => some b
        | none => if cs.isEmpty then none else some i := by
  induction cs generalizing i best with
  | nil => cases best <;> simp [scanBest, specFirstExactIdx]
  | cons c rest ih =>
    by_cases h : isExactMatch t y c
    · simp [scanBest, specFirstExactIdx, h]
    · simp only [scanBest, specFirstExactIdx, h, ite_false, Bool.false_eq_true]
      rw [ih]
      cases hf : specFirstExactIdx t y rest
      · cases best <;> simp [Option.isNone]
      · cases best <;> simp [Option.isNone] <;> omega

/-- C1: the fallback matcher performs a single left-to-right scan returning the
first exact title+year match if one exists (stopping there), and otherwise the
first candidate of the list; it returns no match only on the empty list.  The
two concrete examples of the claim are included. -/
theorem fallback_matcher_single_scan_C1 (cs : List MatchCandidate) (t y : String) :
    (findBestMatch cs t y =
      match specFirstExactIdx t y cs with
      | some j => some j
      | none => if cs.isEmpty then none else some 0) ∧
    (findBestMatch cs t y = none ↔ cs = []) ∧
    findBestMatch [⟨"Foo", some "2001"⟩, ⟨"Foo", some "1999"⟩] "Foo" "1999" = some 1 ∧
    findBestMatch [⟨"Bar", none⟩, ⟨"Foo", none⟩] "Foo" "" = some 0 := by
  have hmain : findBestMatch cs t y =
      match specFirstExactIdx t y cs with
      | some j => some j
      | none => if cs.isEmpty then none else some 0 := by
    rw [findBestMatch, scanBest_eq]
    cases specFirstExactIdx t y cs <;> simp
  refine ⟨hmain, ?_, by decide, by decide⟩
  rw [hmain]
  cases hf : specFirstExactIdx t y cs
  · cases cs <;> simp_all
  · constructor
    · intro h; simp at h
    · rintro rfl; simp [specFirstExactIdx] at hf

/-- C2: a read reports found=false exactly when the key is absent or the
entry's expiration has passed at read time, for every cache state (so in
particular independently of any sweep having run); and a sweep performed at
any instant no later than the read never changes the result of the read. -/
theorem cache_get_lazy_expiry_C2 {κ α : Type} (c : Cache κ α) (k : κ) (t s : Nat) :
    ((c.get t k).2 = false ↔
      c.items k = none ∨ ∃ it, c.items k = some it ∧ it.expiration < t) ∧
    (s ≤ t → (c.cleanup s).get t k = c.get t k) := by
  constructor
  · cases hk : c.items k with
    | none => simp [Cache.get, hk]
    | some it =>
      by_cases hexp : it.expiration < t
      · simp [Cache.get, hk, hexp]
      · simp only [Cache.get, hk, hexp, ite_false]
        constructor
        · intro h; simp at h
        · rintro (h | ⟨it', hit', hexp'⟩)
          · simp at h
          · simp only [Option.some.injEq] at hit'
            subst hit'
            exact absurd hexp' hexp
  · intro hst
    cases hk : c.items k with
    | none => simp [Cache.get, Cache.cleanup, hk]
    | some it =>
      by_cases hs : it.expiration < s
      · have ht : it.expiration < t := lt_of_lt_of_le hs hst
        simp [Cache.get, Cache.cleanup, hk, hs, ht]
      · simp [Cache.get, Cache.cleanup, hk, hs]

/-- Concrete instantiation of C2: a cache holding one entry that expires at
instant 600, read at instant 700 after a sweep at instant 5. -/
def cacheC2 : Cache String Nat := (Cache.empty String Nat 600).set 0 "k" 7

theorem cache_get_lazy_expiry_C2_witness :
    (cacheC2.cleanup 5).get 700 "k" = cacheC2.get 700 "k" :=
  (cache_get_lazy_expiry_C2 cacheC2 "k" 700 5).2 (by decide)

/-- C9: expiry is strict at the boundary.  For an entry stored with expiration
instant E, a read at t with t at most E still finds the value; the entry is
reported absent exactly when the read is strictly after E; the sweep removes
the entry exactly when the sweep time is strictly after E; and Set stores
expiration now plus the default TTL. -/
theorem cache_strict_boundary_C9 {κ α : Type} [DecidableEq κ] (c : Cache κ α)
    (k : κ) (v w : α) (E t s now : Nat) (h : c.items k = some ⟨v, E⟩) :
    (t ≤ E → c.get t k = (some v, true)) ∧
    (E < t → c.get t k = (none, false)) ∧
    ((c.cleanup s).items k = none ↔ E < s) ∧
    (c.set now k w).items k = some ⟨w, now + c.ttl⟩ := by
  refine ⟨fun hle => ?_, fun hlt => ?_, ?_, ?_⟩
  · have : ¬ E < t := not_lt.mpr hle
    simp [Cache.get, h, this]
  · simp [Cache.get, h, hlt]
  · by_cases hs : E < s
    · simp [Cache.cleanup, h, hs]
    · simp [Cache.cleanup, h, hs]
  · simp [Cache.set, Cache.setWithTTL]

/-- Concrete instantiation of C9: entry with expiration 600; reads at the
boundary instant 600 and just after it. -/
def cacheC9 : Cache String Nat := (Cache.empty String Nat 600).set 0 "k" 7

theorem cache_strict_boundary_C9_witness :
    cacheC9.get 600 "k" = (some 7, true) ∧
    cacheC9.get 601 "k" = (none, false) ∧
    ((cacheC9.cleanup 601).items "k" = none ↔ 600 < 601) :=
  have h : cacheC9.items "k" = some ⟨7, 600⟩ := by decide
  have main := cache_strict_boundary_C9 cacheC9 "k" 7 7 600 600 601 0 h
  have main2 := cache_strict_boundary_C9 cacheC9 "k" 7 7 600 601 601 0 h
  ⟨main.1 (by decide), main2.2.1 (by decide), main2.2.2.1⟩

/-! ## Shared cache key and value space.

main.go builds one appCache shared by the ratings and TMDB services.  Go keys
are Sprintf-rendered strings with disjoint shapes; they are modelled as a
structured key type (the renderings used by the code are injective on the
reachable key space).  Go values are interface values read back through type
assertions; they are modelled as a sum. -/

inductive CKey where
  | ratings (title year mediaType : String)
  | movieExt (tmdbID : Int)
  | tvExt (tmdbID : Int)
  | existingMovies
  | existingSeries
  deriving DecidableEq, Repr

/-- RatingsResult (ratings.go lines 27-33); pointer-optional ints are Option,
the IMDB score is the rendered string (empty when never set). -/
structure RatingsResult where
  rottenTomatoes : Option Int
  rtAudienceScore : Option Int
  rtCertified : Bool
  imdb : String
  metacritic : Option Int
  deriving DecidableEq, Repr

def RatingsResult.empty : RatingsResult :=
  { rottenTomatoes := none, rtAudienceScore := none, rtCertified := false,
    imdb := "", metacritic := none }

inductive CVal where
  | str (s : String)
  | ratings (r : RatingsResult)
  | idSet (ids : List Int)
  | tvIDs (tvdb : Int) (imdb : String)
  deriving DecidableEq, Repr

/-- Go: cached.(*RatingsResult).  The assertion cannot fail on reachable
states (ratings keys only ever hold ratings records); modelled total. -/
def asRatings : CVal → RatingsResult
  | .ratings r => r
  | _ => RatingsResult.empty

/-- Environment threaded through the services: the shared cache, the current
instant, and counters of outbound calls (observables for the claims about
which collaborator is consulted when). -/
structure Env where
  cache : Cache CKey CVal
  now : Nat
  mdbCalls : Nat
  rtCalls : Nat
  radarrCalls : Nat
  ledgerCalls : Nat
  detailCalls : Nat

/-- Fresh process state: empty cache with the 10-minute default TTL. -/
def env0 : Env :=
  { cache := Cache.empty CKey CVal defaultCacheTTL, now := 0, mdbCalls := 0,
    rtCalls := 0, radarrCalls := 0, ledgerCalls := 0, detailCalls := 0 }

/-! ## Rating aggregator (ratings.go, GetRatings lines 45-83).

The two provider calls are modelled by oracle parameters:
  mdbNet : outcome of the MDBList HTTP interaction when it is issued
           (none = any error: transport, non-200, decode, payload error field);
  rtNet  : outcome of getRTRatings when it is called
           (none = error; some none = no hits or no match, the (nil, nil)
           return; some (some r) = the record read off the chosen hit).
getMDBListRatings issues its HTTP request only when an identifier is supplied
(imdbID non-empty, else tmdbID > 0); otherwise it returns the error
"no ID provided" before any network activity (ratings.go lines 89-100). -/

def ratingsCacheKey (title year mediaType : String) : CKey :=
  CKey.ratings title year mediaType

/-- Step 1 of the miss path: the MDBList attempt.  Returns the running record
and the environment (mdbCalls incremented exactly when the HTTP request was
issued). -/
def mdbStep (env : Env) (mdblistKey imdbID : String) (tmdbID : Int)
    (mdbNet : Option RatingsResult) : RatingsResult × Env :=
  if mdblistKey ≠ "" then
    if imdbID ≠ "" ∨ tmdbID > 0 then
      let env := { env with mdbCalls := env.mdbCalls + 1 }
      match mdbNet with
      | some r => (r, env)
      | none => (RatingsResult.empty, env)
    else (RatingsResult.empty, env)
  else (RatingsResult.empty, env)

/-- Lines 67-75: fill optional fields only when still unset; the certified
flag is written only when the fallback reports it set. -/
def mergeRT (result rtResult : RatingsResult) : RatingsResult :=
  { result with
    rottenTomatoes :=
      if result.rottenTomatoes = none then rtResult.rottenTomatoes
      else result.rottenTomatoes,
    rtAudienceScore :=
      if result.rtAudienceScore = none then rtResult.rtAudienceScore
      else result.rtAudienceScore,
    rtCertified :=
      if rtResult.rtCertified then rtResult.rtCertified else result.rtCertified }

/-- Step 2 of the miss path: the Rotten-Tomatoes fallback, consulted only when
the critics score is still unset and the title is non-empty (line 64). -/
def rtStep (env : Env) (title : String) (r1 : RatingsResult)
    (rtNet : Option (Option RatingsResult)) : RatingsResult × Env :=
  if r1.rottenTomatoes = none ∧ title ≠ "" then
    let env := { env with rtCalls := env.rtCalls + 1 }
    match rtNet with
    | some (some rt) => (mergeRT r1 rt, env)
    | _ => (r1, env)
  else (r1, env)

/-- The cache-miss path of GetRatings: MDBList attempt, RT fallback,
unconditional Set of the merged record under the default TTL. -/
def getRatingsMiss (env : Env) (mdblistKey title year mediaType imdbID : String)
    (tmdbID : Int) (mdbNet : Option RatingsResult)
    (rtNet : Option (Option RatingsResult)) : RatingsResult × Env :=
  let s1 := mdbStep env mdblistKey imdbID tmdbID mdbNet
  let s2 := rtStep s1.2 title s1.1 rtNet
  (s2.1, { s2.2 with
           cache := s2.2.cache.set s2.2.now (ratingsCacheKey title year mediaType)
             (.ratings s2.1) })

/-- GetRatings (lines 45-83): cache check, then the miss path.  The Go
function returns a nil error on every path. -/
def getRatings (env : Env) (mdblistKey title year mediaType imdbID : String)
    (tmdbID : Int) (mdbNet : Option RatingsResult)
    (rtNet : Option (Option RatingsResult)) : RatingsResult × Env :=
  match env.cache.lookup env.now (ratingsCacheKey title year mediaType) with
  | some cv => (asRatings cv, env)
  | none => getRatingsMiss env mdblistKey title year mediaType imdbID tmdbID mdbNet rtNet

/-- The /api/ratings handler (handlers.go lines 345-364): rejects the request
with a visible 400 error when title, imdb id are empty and the parsed tmdb id
is zero; otherwise answers with the (never-failing) service result. -/
def handleGetRatings (env : Env) (mdblistKey title year mediaType imdbID : String)
    (tmdbID : Int) (mdbNet : Option RatingsResult)
    (rtNet : Option (Option RatingsResult)) : Except String (RatingsResult × Env) :=
  if title = "" ∧ imdbID = "" ∧ tmdbID = 0 then
    Except.error "Title or ID required"
  else
    Except.ok (getRatings env mdblistKey title year mediaType imdbID tmdbID mdbNet rtNet)

theorem getRatings_of_hit (env : Env) (k title year mt i : String) (t : Int)
    (mn : Option RatingsResult) (rn : Option (Option RatingsResult)) (cv : CVal)
    (h : env.cache.lookup env.now (ratingsCacheKey title year mt) = some cv) :
    getRatings env k title year mt i t mn rn = (asRatings cv, env) := by
  unfold getRatings; rw [h]

theorem getRatings_of_miss (env : Env) (k title year mt i : String) (t : Int)
    (mn : Option RatingsResult) (rn : Option (Option RatingsResult))
    (h : env.cache.lookup env.now (ratingsCacheKey title year mt) = none) :
    getRatings env k title year mt i t mn rn =
      getRatingsMiss env k title year mt i t mn rn := by
  unfold getRatings; rw [h]

theorem mdbStep_preserves (env : Env) (k i : String) (t : Int)
    (n : Option RatingsResult) :
    (mdbStep env k i t n).2.cache = env.cache ∧
    (mdbStep env k i t n).2.now = env.now ∧
    (mdbStep env k i t n).2.rtCalls = env.rtCalls := by
  unfold mdbStep
  split
  · split
    · cases n <;> simp
    · simp
  · simp

theorem rtStep_preserves (env : Env) (title : String) (r1 : RatingsResult)
    (rn : Option (Option RatingsResult)) :
    (rtStep env title r1 rn).2.cache = env.cache ∧
    (rtStep env title r1 rn).2.now = env.now ∧
    (rtStep env title r1 rn).2.mdbCalls = env.mdbCalls := by
  unfold rtStep
  split
  · rcases rn with _ | (_ | _) <;> simp
  · simp

theorem mdbStep_fail (env : Env) (k i : String) (t : Int) :
    (mdbStep env k i t none).1 = RatingsResult.empty := by
  unfold mdbStep
  split
  · split <;> simp
  · simp

theorem rtStep_fail (env : Env) (title : String) (r1 : RatingsResult) :
    (rtStep env title r1 none).1 = r1 := by
  unfold rtStep
  split <;> simp

theorem lookup_of_items {κ α : Type} (c : Cache κ α) (k : κ) (it : CacheItem α)
    (t : Nat) (h : c.items k = some it) (hle : t ≤ it.expiration) :
    c.lookup t k = some it.value := by
  rw [Cache.lookup, Cache.get, h]
  simp [Nat.not_lt.mpr hle]

/-- C3: the merge writes a secondary-provider field only when it is still
unset after the primary step (and then takes the secondary value); a populated
field is never overwritten, and the fields the secondary does not supply are
untouched.  The secondary provider is consulted (rtCalls incremented) exactly
when the critics score is still unset and the title is non-empty.  Finally the
claim's concrete instance: primary critics 80, secondary critics 60, merged
record keeps 80. -/
theorem ratings_merge_never_overwrites_C3 (r rt : RatingsResult) (env : Env)
    (title : String) (rn : Option (Option RatingsResult)) :
    (r.rottenTomatoes ≠ none → (mergeRT r rt).rottenTomatoes = r.rottenTomatoes) ∧
    (r.rtAudienceScore ≠ none → (mergeRT r rt).rtAudienceScore = r.rtAudienceScore) ∧
    (r.rtCertified = true → (mergeRT r rt).rtCertified = true) ∧
    (r.rottenTomatoes = none → (mergeRT r rt).rottenTomatoes = rt.rottenTomatoes) ∧
    (mergeRT r rt).imdb = r.imdb ∧
    (mergeRT r rt).metacritic = r.metacritic ∧
    ((rtStep env title r rn).2.rtCalls = env.rtCalls + 1 ↔
      r.rottenTomatoes = none ∧ title ≠ "") ∧
    (getRatings env0 "K" "T" "2001" "movie" "tt1" 1
        (some { RatingsResult.empty with rottenTomatoes := some 80 })
        (some (some { RatingsResult.empty with rottenTomatoes := some 60 }))).1.rottenTomatoes
      = some 80 := by
  refine ⟨fun h => ?_, fun h => ?_, fun h => ?_, fun h => ?_, ?_, ?_, ?_, ?_⟩
  · simp [mergeRT, h]
  · simp [mergeRT, h]
  · cases hc : rt.rtCertified <;> simp [mergeRT, hc, h]
  · simp [mergeRT, h]
  · simp [mergeRT]
  · simp [mergeRT]
  · by_cases hcond : r.rottenTomatoes = none ∧ title ≠ ""
    · unfold rtStep
      rw [if_pos hcond]
      rcases rn with _ | (_ | _) <;> simp [hcond]
    · unfold rtStep
      rw [if_neg hcond]
      simp [hcond]
  · decide

theorem ratings_merge_never_overwrites_C3_witness :
    (mergeRT { RatingsResult.empty with rottenTomatoes := some 80 }
        { RatingsResult.empty with rottenTomatoes := some 60 }).rottenTomatoes
      = some 80 ∧
    (mergeRT { RatingsResult.empty with rtAudienceScore := some 9 }
        { RatingsResult.empty with rtAudienceScore := some 1 }).rtAudienceScore
      = some 9 :=
  ⟨(ratings_merge_never_overwrites_C3
      { RatingsResult.empty with rottenTomatoes := some 80 }
      { RatingsResult.empty with rottenTomatoes := some 60 } env0 "" none).1
      (by decide),
   (ratings_merge_never_overwrites_C3
      { RatingsResult.empty with rtAudienceScore := some 9 }
      { RatingsResult.empty with rtAudienceScore := some 1 } env0 "" none).2.1
      (by decide)⟩

/-- C4: on a cache miss, the merged record is cached under the
(title, year, mediaType) key with the default TTL unconditionally - in
particular when both providers fail, in which case the record is empty - and
any later call within the TTL for the same (title, year, mediaType) returns
the cached record unchanged with no provider invocation (the whole
environment, call counters included, is returned untouched).  The call itself
never fails: it is total and always yields a record. -/
theorem ratings_cache_unconditional_C4 (env : Env) (k title year mt i : String)
    (t : Int) (mn : Option RatingsResult) (rn : Option (Option RatingsResult))
    (hmiss : env.cache.lookup env.now (ratingsCacheKey title year mt) = none) :
    (getRatings env k title year mt i t mn rn).2.cache.items
        (ratingsCacheKey title year mt)
      = some ⟨.ratings (getRatings env k title year mt i t mn rn).1,
              env.now + env.cache.ttl⟩ ∧
    (mn = none → rn = none →
      (getRatings env k title year mt i t mn rn).1 = RatingsResult.empty) ∧
    (∀ t2, t2 ≤ env.now + env.cache.ttl → ∀ k2 i2 t3 mn2 rn2,
      getRatings { (getRatings env k title year mt i t mn rn).2 with now := t2 }
          k2 title year mt i2 t3 mn2 rn2
        = ((getRatings env k title year mt i t mn rn).1,
           { (getRatings env k title year mt i t mn rn).2 with now := t2 })) := by
  rw [getRatings_of_miss env k title year mt i t mn rn hmiss]
  have hc1 := (mdbStep_preserves env k i t mn).1
  have hn1 := (mdbStep_preserves env k i t mn).2.1
  have hc2 := (rtStep_preserves (mdbStep env k i t mn).2 title
    (mdbStep env k i t mn).1 rn).1
  have hn2 := (rtStep_preserves (mdbStep env k i t mn).2 title
    (mdbStep env k i t mn).1 rn).2.1
  have hitems : (getRatingsMiss env k title year mt i t mn rn).2.cache.items
      (ratingsCacheKey title year mt)
      = some ⟨.ratings (getRatingsMiss env k title year mt i t mn rn).1,
              env.now + env.cache.ttl⟩ := by
    simp only [getRatingsMiss, Cache.set, Cache.setWithTTL]
    rw [hc2, hc1, hn2, hn1]
    simp
  refine ⟨hitems, fun hmn hrn => ?_, fun t2 ht2 k2 i2 t3 mn2 rn2 => ?_⟩
  · subst hmn; subst hrn
    simp only [getRatingsMiss]
    rw [show (mdbStep env k i t none).1 = RatingsResult.empty from mdbStep_fail env k i t,
        rtStep_fail]
  · have hlk : ({ (getRatingsMiss env k title year mt i t mn rn).2 with now := t2 }).cache.lookup t2 (ratingsCacheKey title year mt)
        = some (.ratings (getRatingsMiss env k title year mt i t mn rn).1) := by
      exact lookup_of_items _ _ _ t2 hitems ht2
    rw [getRatings_of_hit _ k2 title year mt i2 t3 mn2 rn2 _ hlk]
    simp [asRatings]

theorem ratings_cache_unconditional_C4_witness :
    (getRatings env0 "" "T" "Y" "movie" "" 0 none none).1 = RatingsResult.empty ∧
    getRatings { (getRatings env0 "" "T" "Y" "movie" "" 0 none none).2 with now := 5 }
        "zz" "T" "Y" "movie" "tt9" 3 none none
      = ((getRatings env0 "" "T" "Y" "movie" "" 0 none none).1,
         { (getRatings env0 "" "T" "Y" "movie" "" 0 none none).2 with now := 5 }) :=
  have h := ratings_cache_unconditional_C4 env0 "" "T" "Y" "movie" "" 0 none none rfl
  ⟨h.2.1 rfl rfl, h.2.2 5 (by decide) "zz" "tt9" 3 none none⟩

/-- C7 counterexample: with empty title, empty IMDB id and the non-positive
(but non-zero) TMDB id -1, the handler does NOT surface a visible error - it
answers with the (empty) ratings record - refuting the claim that every
no-title, no-identifier call with a non-positive TMDB id is rejected. -/
theorem ratings_precondition_C7_counterexample :
    handleGetRatings env0 "" "" "Y" "movie" "" (-1) none none
      = Except.ok (getRatings env0 "" "" "Y" "movie" "" (-1) none none) := by
  unfold handleGetRatings
  rw [if_neg]
  simp

/-- C7 amended: the handler surfaces a visible error exactly when the title
and IMDB id are empty and the parsed TMDB id is zero; every other call - in
particular every provider-level failure - is answered with a best-effort
record. -/
theorem ratings_precondition_error_C7 (env : Env) (k title year mt i : String)
    (t : Int) (mn : Option RatingsResult) (rn : Option (Option RatingsResult)) :
    (handleGetRatings env k title year mt i t mn rn
        = Except.error "Title or ID required"
      ↔ title = "" ∧ i = "" ∧ t = 0) ∧
    (¬ (title = "" ∧ i = "" ∧ t = 0) →
      handleGetRatings env k title year mt i t mn rn
        = Except.ok (getRatings env k title year mt i t mn rn)) := by
  constructor
  · by_cases h : title = "" ∧ i = "" ∧ t = 0
    · unfold handleGetRatings
      rw [if_pos h]
      simp [h]
    · unfold handleGetRatings
      rw [if_neg h]
      simp [h]
  · intro h
    unfold handleGetRatings
    rw [if_neg h]

theorem ratings_precondition_error_C7_witness :
    handleGetRatings env0 "k" "T" "Y" "movie" "" 0 none none
      = Except.ok (getRatings env0 "k" "T" "Y" "movie" "" 0 none none) :=
  (ratings_precondition_error_C7 env0 "k" "T" "Y" "movie" "" 0 none none).2
    (by decide)

/-! ## Enrichment pipeline (tmdb.go, DiscoverMovies lines 95-207,
DiscoverTV lines 209-322, getExistingMovieIDs lines 324-361, and
models.DB.GetRequestedIDs, part_001 lines 273-299).

The Go code launches one goroutine per raw result, each writing to a
pre-indexed slot of the output slice, and joins on all of them; the loop body
is embedded as a fold over the page in input order (a linearisation of the
fan-out; each slot is a function of its own raw item, the two ID sets, the
shared cache and the per-item oracles).  Outbound interactions are oracles:
  radarrNet / sonarrNet : the id list decoded from the library service
                          (none = transport or decode error, yielding the
                          empty set and no cache write);
  requestedNet          : the ledger query result (none = SQL error; the
                          caller discards the error and uses the empty set);
  detail                : per tmdb id, the outcome of the detail request. -/

/-- A raw discovery result (the fields of the results array the loop body
reads).  The id field is asserted unconditionally in Go; absent optional
fields decode to the zero value through getString and getInt.  The float
vote average is carried as an opaque integer scale (no arithmetic is
performed on it). -/
structure RawMovie where
  id : Int
  title : Option String
  overview : Option String
  posterPath : Option String
  backdropPath : Option String
  releaseDate : Option String
  voteAverage : Option Int
  voteCount : Option Int
  deriving DecidableEq, Repr

/-- Outcome of a successful movie detail request: the imdb id read from
external_ids.imdb_id when that path is present, and the top-level imdb_id
fallback field. -/
structure MovieDetail where
  extImdb : Option String
  topImdb : Option String
  deriving DecidableEq, Repr

/-- Lines 150-159: prefer external_ids.imdb_id; if the resulting id is still
empty, fall back to the top-level imdb_id; default empty. -/
def extractImdb (d : MovieDetail) : String :=
  let i := d.extImdb.getD ""
  if i = "" then d.topImdb.getD "" else i

/-- The imdb id a fresh (cold-cache) resolution of a given tmdb id produces:
empty on a failed detail call, the extracted id otherwise. -/
def resolveOutcome (detail : Int → Option MovieDetail) (id : Int) : String :=
  match detail id with
  | none => ""
  | some d => extractImdb d

/-- MediaItem (tmdb.go lines 32-47) restricted to the fields the discovery
loop fills. -/
structure MediaItem where
  tmdbID : Int
  tvdbID : Int
  imdbID : String
  title : String
  year : String
  overview : String
  rating : Int
  voteCount : Int
  poster : String
  fanart : String
  requestStatus : String
  source : String
  deriving DecidableEq, Repr

def tmdbImageURL : String := "https://image.tmdb.org/t/p"

/-- Lines 164-169: status precedence for movies, keyed by the tmdb id. -/
def movieStatus (existing requested : List Int) (tmdbID : Int) : String :=
  if existing.contains tmdbID then "exists"
  else if requested.contains tmdbID then "requested"
  else "available"

/-- Lines 278-283: status precedence for TV, keyed by the resolved tvdb id,
guarded by the id being positive. -/
def tvStatus (existing requested : List Int) (tvdbID : Int) : String :=
  if 0 < tvdbID ∧ existing.contains tvdbID then "exists"
  else if 0 < tvdbID ∧ requested.contains tvdbID then "requested"
  else "available"

/-- Display fields (lines 171-201): poster and fanart URL templates, the
four-character year prefix of the release date, numeric defaults. -/
def mkMovieItem (m : RawMovie) (imdbID status : String) : MediaItem :=
  { tmdbID := m.id
    tvdbID := 0
    imdbID := imdbID
    title := m.title.getD ""
    year :=
      match m.releaseDate with
      | some rd => if 4 ≤ rd.length then rd.take 4 else ""
      | none => ""
    overview := m.overview.getD ""
    rating := m.voteAverage.getD 0
    voteCount := m.voteCount.getD 0
    poster :=
      match m.posterPath with
      | some p => tmdbImageURL ++ "/w500" ++ p
      | none => ""
    fanart :=
      match m.backdropPath with
      | some b => tmdbImageURL ++ "/original" ++ b
      | none => ""
    requestStatus := status
    source := "tmdb" }

/-- The per-item loop body (lines 135-202): consult the per-item cache, on a
miss issue the detail request, cache the extracted id only on success (with
the default TTL, even when the id is empty), then determine status and build
the item.  Go asserts cached.(string) without an ok flag; the assertion
cannot fail on reachable states (movie keys only ever hold strings). -/
def enrichMovie (existing requested : List Int) (detail : Int → Option MovieDetail)
    (env : Env) (m : RawMovie) : MediaItem × Env :=
  let key := CKey.movieExt m.id
  let step :=
    match env.cache.lookup env.now key with
    | some (.str s) => (s, env)
    | some _ => ("", env)
    | none =>
      let env := { env with detailCalls := env.detailCalls + 1 }
      match detail m.id with
      | none => ("", env)
      | some d =>
        let i := extractImdb d
        (i, { env with cache := env.cache.set env.now key (.str i) })
  (mkMovieItem m step.1 (movieStatus existing requested m.id), step.2)

/-- The fan-out over the page, preserving input order (each goroutine writes
slot idx; the join barrier returns the whole slice). -/
def enrichMoviesPage (existing requested : List Int)
    (detail : Int → Option MovieDetail) :
    Env → List RawMovie → List MediaItem × Env
  | env, [] => ([], env)
  | env, m :: rest =>
    let hd := enrichMovie existing requested detail env m
    let tl := enrichMoviesPage existing requested detail hd.2 rest
    (hd.1 :: tl.1, tl.2)

/-- getExistingMovieIDs (lines 324-361): empty set when Radarr is not
configured; otherwise cache-backed under the existing_movies key; on a miss
the Radarr library is fetched (radarrCalls incremented) and the set is cached
with its own 2-minute TTL; on a fetch or decode error the empty set is
returned and nothing is cached. -/
def getExistingMovieIDs (env : Env) (radarrConfigured : Bool)
    (radarrNet : Option (List Int)) : List Int × Env :=
  if radarrConfigured then
    match env.cache.lookup env.now CKey.existingMovies with
    | some (.idSet ids) => (ids, env)
    | some _ => ([], env)
    | none =>
      let env := { env with radarrCalls := env.radarrCalls + 1 }
      match radarrNet with
      | none => ([], env)
      | some ids =>
        (ids, { env with
                cache := env.cache.setWithTTL env.now CKey.existingMovies
                  (.idSet ids) existingIDsTTL })
  else ([], env)

/-- models.DB.GetRequestedIDs (part_001 lines 273-299) as used by the
discovery loop: a direct SQL query against the request ledger on every call,
with no cache in front of it; the caller discards a query error and uses the
empty set. -/
def getRequestedIDs (env : Env) (requestedNet : Option (List Int)) :
    List Int × Env :=
  (requestedNet.getD [], { env with ledgerCalls := env.ledgerCalls + 1 })

/-- DiscoverMovies after a successful upstream discovery request
(lines 125-206): fetch the two sets once for the whole page, then run the
per-item fan-out.  The upstream request itself failing is the only total
failure of DiscoverMovies and precedes everything modelled here. -/
def discoverMoviesCore (env : Env) (radarrConfigured : Bool)
    (radarrNet : Option (List Int)) (requestedNet : Option (List Int))
    (detail : Int → Option MovieDetail) (results : List RawMovie) :
    List MediaItem × Env :=
  let ex := getExistingMovieIDs env radarrConfigured radarrNet
  let rq := getRequestedIDs ex.2 requestedNet
  enrichMoviesPage ex.1 rq.1 detail rq.2 results

/-- A raw TV discovery result (fields read by the DiscoverTV loop body). -/
structure RawTV where
  id : Int
  name : Option String
  overview : Option String
  posterPath : Option String
  backdropPath : Option String
  firstAirDate : Option String
  voteAverage : Option Int
  voteCount : Option Int
  deriving DecidableEq, Repr

/-- The external_ids object of a TV detail response (tvdb_id and imdb_id may
each be absent). -/
structure TVExt where
  tvdbID : Option Int
  imdbID : Option String
  deriving DecidableEq, Repr

/-- Lines 266-273: read tvdb_id and imdb_id from external_ids when present;
zero values otherwise (also when external_ids itself is absent). -/
def extractTV (ext : Option TVExt) : Int × String :=
  match ext with
  | some e => (e.tvdbID.getD 0, e.imdbID.getD "")
  | none => (0, "")

/-- Lines 303-316 display fields for TV. -/
def mkTVItem (s : RawTV) (tvdbID : Int) (imdbID status : String) : MediaItem :=
  { tmdbID := s.id
    tvdbID := tvdbID
    imdbID := imdbID
    title := s.name.getD ""
    year :=
      match s.firstAirDate with
      | some rd => if 4 ≤ rd.length then rd.take 4 else ""
      | none => ""
    overview := s.overview.getD ""
    rating := s.voteAverage.getD 0
    voteCount := s.voteCount.getD 0
    poster :=
      match s.posterPath with
      | some p => tmdbImageURL ++ "/w500" ++ p
      | none => ""
    fanart :=
      match s.backdropPath with
      | some b => tmdbImageURL ++ "/original" ++ b
      | none => ""
    requestStatus := status
    source := "tmdb" }

/-- The DiscoverTV loop body (lines 247-317): per-item cache of the
(tvdb, imdb) pair; on a miss the detail request is issued and, only on
success, the pair (possibly zero values when the response carried no external
identifier) is cached with the default TTL; a cached value of an unexpected
shape degrades to zero values without a detail request (the Go comma-ok
assertions). -/
def enrichTV (existing requested : List Int) (detailTV : Int → Option (Option TVExt))
    (env : Env) (s : RawTV) : MediaItem × Env :=
  let key := CKey.tvExt s.id
  let step :=
    match env.cache.lookup env.now key with
    | some (.tvIDs tv im) => ((tv, im), env)
    | some _ => (((0 : Int), ""), env)
    | none =>
      let env := { env with detailCalls := env.detailCalls + 1 }
      match detailTV s.id with
      | none => (((0 : Int), ""), env)
      | some ext =>
        let p := extractTV ext
        (p, { env with cache := env.cache.set env.now key (.tvIDs p.1 p.2) })
  (mkTVItem s step.1.1 step.1.2 (tvStatus existing requested step.1.1), step.2)

theorem lookup_setWithTTL_eq {κ α : Type} [DecidableEq κ] (c : Cache κ α)
    (now t ttl : Nat) (k : κ) (v : α) (ht : t ≤ now + ttl) :
    (c.setWithTTL now k v ttl).lookup t k = some v := by
  simp [Cache.setWithTTL, Cache.lookup, Cache.get, Nat.not_lt.mpr ht]

theorem lookup_setWithTTL_ne {κ α : Type} [DecidableEq κ] (c : Cache κ α)
    (now t ttl : Nat) (k k' : κ) (v : α) (h : k' ≠ k) :
    (c.setWithTTL now k v ttl).lookup t k' = c.lookup t k' := by
  simp [Cache.setWithTTL, Cache.lookup, Cache.get, h]

theorem lookup_empty {κ α : Type} (ttl t : Nat) (k : κ) :
    (Cache.empty κ α ttl).lookup t k = none := by
  simp [Cache.empty, Cache.lookup, Cache.get]

theorem lookup_set_eq {κ α : Type} [DecidableEq κ] (c : Cache κ α)
    (now t : Nat) (k : κ) (v : α) (ht : t ≤ now + c.ttl) :
    (c.set now k v).lookup t k = some v :=
  lookup_setWithTTL_eq c now t c.ttl k v ht

theorem lookup_set_ne {κ α : Type} [DecidableEq κ] (c : Cache κ α)
    (now t : Nat) (k k' : κ) (v : α) (h : k' ≠ k) :
    (c.set now k v).lookup t k' = c.lookup t k' :=
  lookup_setWithTTL_ne c now t c.ttl k k' v h

theorem items_set_ne {κ α : Type} [DecidableEq κ] (c : Cache κ α)
    (now : Nat) (k k' : κ) (v : α) (h : k' ≠ k) :
    (c.set now k v).items k' = c.items k' := by
  simp [Cache.set, Cache.setWithTTL, h]

/-- Invariant carried through the movie fan-out: every live per-movie cache
entry holds exactly the imdb id a fresh resolution of that tmdb id would
produce.  It holds for the empty cache and is preserved by the loop body,
because the body caches only successful resolutions. -/
def movieCacheOK (detail : Int → Option MovieDetail) (c : Cache CKey CVal)
    (now : Nat) : Prop :=
  ∀ id cv, c.lookup now (CKey.movieExt id) = some cv →
    cv = CVal.str (resolveOutcome detail id)

theorem movieCacheOK_empty (detail : Int → Option MovieDetail) (ttl now : Nat) :
    movieCacheOK detail (Cache.empty CKey CVal ttl) now := by
  intro id cv h
  rw [lookup_empty] at h
  exact absurd h (by simp)

theorem enrichMovie_pure (existing requested : List Int)
    (detail : Int → Option MovieDetail) (env : Env) (m : RawMovie)
    (h : movieCacheOK detail env.cache env.now) :
    (enrichMovie existing requested detail env m).1
      = mkMovieItem m (resolveOutcome detail m.id)
          (movieStatus existing requested m.id) ∧
    (enrichMovie existing requested detail env m).2.now = env.now ∧
    movieCacheOK detail (enrichMovie existing requested detail env m).2.cache
      env.now := by
  cases hlk : env.cache.lookup env.now (CKey.movieExt m.id) with
  | some cv =>
    have hcv := h m.id cv hlk
    subst hcv
    simp only [enrichMovie, hlk]
    exact ⟨trivial, trivial, h⟩
  | none =>
    cases hd : detail m.id with
    | none =>
      simp only [enrichMovie, hlk, hd]
      refine ⟨?_, trivial, h⟩
      unfold resolveOutcome
      rw [hd]
    | some d =>
      simp only [enrichMovie, hlk, hd]
      refine ⟨?_, trivial, ?_⟩
      · unfold resolveOutcome
        rw [hd]
      · intro id cv hcv
        by_cases hid : id = m.id
        · subst hid
          rw [lookup_set_eq _ _ _ _ _ (Nat.le_add_right _ _)] at hcv
          have : cv = CVal.str (extractImdb d) := by
            injection hcv with h'
            exact h'.symm
          rw [this]
          unfold resolveOutcome
          rw [hd]
        · rw [lookup_set_ne _ _ _ _ _ _ (by simp [hid])] at hcv
          exact h id cv hcv

theorem enrichMovie_preserves (existing requested : List Int)
    (detail : Int → Option MovieDetail) (env : Env) (m : RawMovie) :
    (enrichMovie existing requested detail env m).2.now = env.now ∧
    (enrichMovie existing requested detail env m).2.radarrCalls = env.radarrCalls ∧
    (enrichMovie existing requested detail env m).2.ledgerCalls = env.ledgerCalls := by
  cases hlk : env.cache.lookup env.now (CKey.movieExt m.id) with
  | some cv =>
    cases cv <;> simp [enrichMovie, hlk]
  | none =>
    cases hd : detail m.id <;> simp [enrichMovie, hlk, hd]

theorem enrichMovie_cache_other (existing requested : List Int)
    (detail : Int → Option MovieDetail) (env : Env) (m : RawMovie) (k : CKey)
    (hk : ∀ id, k ≠ CKey.movieExt id) :
    (enrichMovie existing requested detail env m).2.cache.items k
      = env.cache.items k := by
  cases hlk : env.cache.lookup env.now (CKey.movieExt m.id) with
  | some cv =>
    cases cv <;> simp [enrichMovie, hlk]
  | none =>
    cases hd : detail m.id with
    | none => simp [enrichMovie, hlk, hd]
    | some d =>
      simp only [enrichMovie, hlk, hd]
      exact items_set_ne _ _ _ _ _ (hk m.id)

theorem enrichMoviesPage_len (existing requested : List Int)
    (detail : Int → Option MovieDetail) (env : Env) (results : List RawMovie) :
    (enrichMoviesPage existing requested detail env results).1.length
      = results.length := by
  induction results generalizing env with
  | nil => rfl
  | cons m rest ih => simp [enrichMoviesPage, ih]

theorem enrichMoviesPage_pure (existing requested : List Int)
    (detail : Int → Option MovieDetail) (env : Env) (results : List RawMovie)
    (h : movieCacheOK detail env.cache env.now) :
    (enrichMoviesPage existing requested detail env results).1
      = results.map (fun m => mkMovieItem m (resolveOutcome detail m.id)
          (movieStatus existing requested m.id)) := by
  induction results generalizing env with
  | nil => rfl
  | cons m rest ih =>
    have hp := enrichMovie_pure existing requested detail env m h
    simp only [enrichMoviesPage, List.map_cons]
    refine congrArg₂ List.cons hp.1 ?_
    exact ih _ (hp.2.1.symm ▸ hp.2.2)

theorem enrichMoviesPage_preserves (existing requested : List Int)
    (detail : Int → Option MovieDetail) (env : Env) (results : List RawMovie) :
    (enrichMoviesPage existing requested detail env results).2.now = env.now ∧
    (enrichMoviesPage existing requested detail env results).2.radarrCalls
      = env.radarrCalls ∧
    (enrichMoviesPage existing requested detail env results).2.ledgerCalls
      = env.ledgerCalls := by
  induction results generalizing env with
  | nil => exact ⟨rfl, rfl, rfl⟩
  | cons m rest ih =>
    have hp := enrichMovie_preserves existing requested detail env m
    have hi := ih (enrichMovie existing requested detail env m).2
    simp only [enrichMoviesPage]
    exact ⟨hi.1.trans hp.1, hi.2.1.trans hp.2.1, hi.2.2.trans hp.2.2⟩

theorem enrichMoviesPage_cache_other (existing requested : List Int)
    (detail : Int → Option MovieDetail) (env : Env) (results : List RawMovie)
    (k : CKey) (hk : ∀ id, k ≠ CKey.movieExt id) :
    (enrichMoviesPage existing requested detail env results).2.cache.items k
      = env.cache.items k := by
  induction results generalizing env with
  | nil => rfl
  | cons m rest ih =>
    have hp := enrichMovie_cache_other existing requested detail env m k hk
    have hi := ih (enrichMovie existing requested detail env m).2
    simp only [enrichMoviesPage]
    exact hi.trans hp

/-- C5: the enrichment fan-out returns exactly one output item per raw input
item, in input order (slot i of the output is a function of raw item i alone,
given the two sets and the resolution oracle); a per-item resolution failure
degrades only that item - its imdb id is left empty while its status is still
computed from its known tmdb id - and never shortens or aborts the page. -/
theorem pipeline_item_failure_C5 (existing requested : List Int)
    (detail : Int → Option MovieDetail) (env : Env) (results : List RawMovie)
    (h : movieCacheOK detail env.cache env.now) :
    (enrichMoviesPage existing requested detail env results).1.length
      = results.length ∧
    (enrichMoviesPage existing requested detail env results).1
      = results.map (fun m => mkMovieItem m (resolveOutcome detail m.id)
          (movieStatus existing requested m.id)) ∧
    (∀ i : Nat, (enrichMoviesPage existing requested detail env results).1[i]?
      = (results[i]?).map (fun m => mkMovieItem m (resolveOutcome detail m.id)
          (movieStatus existing requested m.id))) ∧
    (∀ m : RawMovie, detail m.id = none →
      (mkMovieItem m (resolveOutcome detail m.id)
        (movieStatus existing requested m.id)).imdbID = "" ∧
      (mkMovieItem m (resolveOutcome detail m.id)
        (movieStatus existing requested m.id)).requestStatus
        = movieStatus existing requested m.id) := by
  have hpure := enrichMoviesPage_pure existing requested detail env results h
  refine ⟨enrichMoviesPage_len existing requested detail env results, hpure,
    fun i => ?_, fun m hm => ⟨?_, rfl⟩⟩
  · rw [hpure, List.getElem?_map]
  · simp [mkMovieItem, resolveOutcome, hm]

/-- A raw movie with only its id set (all optional fields absent). -/
def rmW (i : Int) : RawMovie :=
  { id := i, title := none, overview := none, posterPath := none,
    backdropPath := none, releaseDate := none, voteAverage := none,
    voteCount := none }

/-- Resolution oracle that fails exactly on tmdb id 2. -/
def detailW : Int → Option MovieDetail :=
  fun id => if id = 2 then none else some { extImdb := some "tt7", topImdb := none }

theorem pipeline_item_failure_C5_witness :
    (enrichMoviesPage [1] [3] detailW env0 [rmW 1, rmW 2, rmW 3]).1.length = 3 ∧
    (mkMovieItem (rmW 2) (resolveOutcome detailW 2)
      (movieStatus [1] [3] 2)).imdbID = "" :=
  have h := pipeline_item_failure_C5 [1] [3] detailW env0 [rmW 1, rmW 2, rmW 3]
    (movieCacheOK_empty detailW defaultCacheTTL 0)
  ⟨h.1, (h.2.2.2 (rmW 2) (by decide)).1⟩

/-- C6: status precedence is exists over requested over available, for the
movie status (keyed by the tmdb id) and for the TV status (keyed by the
resolved tvdb id, which must be positive); the loop bodies assign exactly
these statuses. -/
theorem status_precedence_C6 (existing requested : List Int) (id : Int)
    (detail : Int → Option MovieDetail) (detailTV : Int → Option (Option TVExt))
    (env env2 : Env) (m : RawMovie) (s : RawTV) :
    (existing.contains id = true → movieStatus existing requested id = "exists") ∧
    (existing.contains id = false → requested.contains id = true →
      movieStatus existing requested id = "requested") ∧
    (existing.contains id = false → requested.contains id = false →
      movieStatus existing requested id = "available") ∧
    (0 < id → existing.contains id = true →
      tvStatus existing requested id = "exists") ∧
    (0 < id → existing.contains id = false → requested.contains id = true →
      tvStatus existing requested id = "requested") ∧
    (existing.contains id = false → requested.contains id = false →
      tvStatus existing requested id = "available") ∧
    (enrichMovie existing requested detail env m).1.requestStatus
      = movieStatus existing requested m.id ∧
    (enrichTV existing requested detailTV env2 s).1.requestStatus
      = tvStatus existing requested
          (enrichTV existing requested detailTV env2 s).1.tvdbID := by
  refine ⟨fun h1 => ?_, fun h1 h2 => ?_, fun h1 h2 => ?_, fun hp h1 => ?_,
    fun hp h1 h2 => ?_, fun h1 h2 => ?_, rfl, rfl⟩
  · simp at h1; simp [movieStatus, h1]
  · simp at h1 h2; simp [movieStatus, h1, h2]
  · simp at h1 h2; simp [movieStatus, h1, h2]
  · simp at h1; simp [tvStatus, hp, h1]
  · simp at h1 h2; simp [tvStatus, hp, h1, h2]
  · simp at h1 h2; simp [tvStatus, h1, h2]

/-- A raw TV result with only its id set. -/
def rtvW (i : Int) : RawTV :=
  { id := i, name := none, overview := none, posterPath := none,
    backdropPath := none, firstAirDate := none, voteAverage := none,
    voteCount := none }

theorem status_precedence_C6_witness :
    movieStatus [5] [5] 5 = "exists" ∧ tvStatus [5] [5] 5 = "exists" :=
  have h := status_precedence_C6 [5] [5] 5 (fun _ => none) (fun _ => none)
    env0 env0 (rmW 9) (rtvW 9)
  ⟨h.1 (by decide), h.2.2.2.1 (by decide) (by decide)⟩

theorem getExistingMovieIDs_preserves (env : Env) (cfg : Bool)
    (rn : Option (List Int)) :
    (getExistingMovieIDs env cfg rn).2.now = env.now ∧
    (getExistingMovieIDs env cfg rn).2.ledgerCalls = env.ledgerCalls := by
  cases cfg with
  | false => exact ⟨rfl, rfl⟩
  | true =>
    cases hlk : env.cache.lookup env.now CKey.existingMovies with
    | some cv => cases cv <;> simp [getExistingMovieIDs, hlk]
    | none => cases rn <;> simp [getExistingMovieIDs, hlk]

theorem getExistingMovieIDs_radarr (env : Env) (cfg : Bool)
    (rn : Option (List Int)) :
    (getExistingMovieIDs env cfg rn).2.radarrCalls = env.radarrCalls ∨
    (getExistingMovieIDs env cfg rn).2.radarrCalls = env.radarrCalls + 1 := by
  cases cfg with
  | false => exact Or.inl rfl
  | true =>
    cases hlk : env.cache.lookup env.now CKey.existingMovies with
    | some cv => cases cv <;> simp [getExistingMovieIDs, hlk]
    | none => cases rn <;> simp [getExistingMovieIDs, hlk]

theorem getExistingMovieIDs_hit (env : Env) (ids : List Int)
    (rn : Option (List Int))
    (h : env.cache.lookup env.now CKey.existingMovies = some (.idSet ids)) :
    getExistingMovieIDs env true rn = (ids, env) := by
  simp [getExistingMovieIDs, h]

theorem getExistingMovieIDs_miss_ok (env : Env) (ids : List Int)
    (h : env.cache.lookup env.now CKey.existingMovies = none) :
    getExistingMovieIDs env true (some ids)
      = (ids,
         { { env with radarrCalls := env.radarrCalls + 1 } with
           cache := env.cache.setWithTTL env.now CKey.existingMovies
             (.idSet ids) existingIDsTTL }) := by
  simp [getExistingMovieIDs, h]

theorem discoverMoviesCore_radarr_hit (env : Env) (ids : List Int)
    (rn qn : Option (List Int)) (d : Int → Option MovieDetail)
    (rs : List RawMovie)
    (h : env.cache.lookup env.now CKey.existingMovies = some (.idSet ids)) :
    (discoverMoviesCore env true rn qn d rs).2.radarrCalls = env.radarrCalls := by
  unfold discoverMoviesCore
  rw [getExistingMovieIDs_hit env ids rn h]
  rw [(enrichMoviesPage_preserves _ _ d _ rs).2.1]
  rfl

/-- C8 as stated is refuted on a concrete double run: two Enrich calls 60
seconds apart on a fresh state consult the request ledger twice (one SQL
query per call: the requested-set fetch is not cache-backed), while the
library service is consulted once (that fetch is cache-backed). -/
theorem fetch_sets_C8_counterexample :
    (discoverMoviesCore
        { (discoverMoviesCore env0 true (some [1]) (some [2])
            (fun _ => none) []).2 with now := 60 }
        true (some [1]) (some [2]) (fun _ => none) []).2.ledgerCalls = 2 ∧
    (discoverMoviesCore
        { (discoverMoviesCore env0 true (some [1]) (some [2])
            (fun _ => none) []).2 with now := 60 }
        true (some [1]) (some [2]) (fun _ => none) []).2.radarrCalls = 1 := by
  decide

/-- C8 amended: each Enrich call fetches the existing-library set and the
requested set exactly once per call (not per item); the existing-library
fetch is cache-backed under its own TTL of 120 seconds, shorter than the
600-second default, so a second call within that TTL does not consult the
library service again; the requested-set fetch is a direct ledger query on
every call (not cache-backed). -/
theorem fetch_sets_once_per_call_C8 (env : Env) (cfg : Bool)
    (rn qn qn2 : Option (List Int)) (ids : List Int)
    (detail detail2 : Int → Option MovieDetail)
    (results results2 : List RawMovie) (t2 : Nat)
    (hmiss : env.cache.lookup env.now CKey.existingMovies = none)
    (ht2 : t2 ≤ env.now + existingIDsTTL) :
    (discoverMoviesCore env cfg rn qn detail results).2.ledgerCalls
      = env.ledgerCalls + 1 ∧
    ((discoverMoviesCore env cfg rn qn detail results).2.radarrCalls
        = env.radarrCalls ∨
     (discoverMoviesCore env cfg rn qn detail results).2.radarrCalls
        = env.radarrCalls + 1) ∧
    existingIDsTTL < defaultCacheTTL ∧
    (discoverMoviesCore env true (some ids) qn detail results).2.cache.items
        CKey.existingMovies
      = some ⟨.idSet ids, env.now + existingIDsTTL⟩ ∧
    (discoverMoviesCore
        { (discoverMoviesCore env true (some ids) qn detail results).2 with now := t2 }
        true rn qn2 detail2 results2).2.radarrCalls
      = (discoverMoviesCore env true (some ids) qn detail results).2.radarrCalls ∧
    (discoverMoviesCore
        { (discoverMoviesCore env true (some ids) qn detail results).2 with now := t2 }
        true rn qn2 detail2 results2).2.ledgerCalls
      = (discoverMoviesCore env true (some ids) qn detail results).2.ledgerCalls + 1 := by
  have hother : ∀ id : Int, CKey.existingMovies ≠ CKey.movieExt id := by
    intro id h
    cases h
  -- once-per-call ledger count, any configuration
  have hledger : ∀ (env' : Env) (cfg' : Bool) (rn' qn' : Option (List Int))
      (d : Int → Option MovieDetail) (rs : List RawMovie),
      (discoverMoviesCore env' cfg' rn' qn' d rs).2.ledgerCalls
        = env'.ledgerCalls + 1 := by
    intro env' cfg' rn' qn' d rs
    unfold discoverMoviesCore
    rw [(enrichMoviesPage_preserves _ _ d _ rs).2.2]
    simp [getRequestedIDs, (getExistingMovieIDs_preserves env' cfg' rn').2]
  -- the first call with a configured, reachable library on a cold cache
  have hfirst := getExistingMovieIDs_miss_ok env ids hmiss
  have hfcache : (discoverMoviesCore env true (some ids) qn detail results).2.cache.items
      CKey.existingMovies = some ⟨.idSet ids, env.now + existingIDsTTL⟩ := by
    unfold discoverMoviesCore
    rw [hfirst]
    rw [enrichMoviesPage_cache_other _ _ _ _ _ _ hother]
    simp [getRequestedIDs, Cache.setWithTTL]
  have hfnow : (discoverMoviesCore env true (some ids) qn detail results).2.now
      = env.now := by
    unfold discoverMoviesCore
    rw [hfirst]
    rw [(enrichMoviesPage_preserves _ _ _ _ _).1]
    simp [getRequestedIDs]
  refine ⟨hledger env cfg rn qn detail results, ?_, by decide, hfcache, ?_, ?_⟩
  · -- library consulted at most once in a call
    unfold discoverMoviesCore
    rw [(enrichMoviesPage_preserves _ _ detail _ results).2.1]
    have : (getRequestedIDs (getExistingMovieIDs env cfg rn).2 qn).2.radarrCalls
        = (getExistingMovieIDs env cfg rn).2.radarrCalls := rfl
    rw [this]
    exact getExistingMovieIDs_radarr env cfg rn
  · -- second call within the TTL: served from the cache, no library call
    have hlk2 : ({ (discoverMoviesCore env true (some ids) qn detail results).2
        with now := t2 } : Env).cache.lookup t2 CKey.existingMovies
        = some (.idSet ids) :=
      lookup_of_items _ _ _ t2 hfcache ht2
    exact discoverMoviesCore_radarr_hit _ ids rn qn2 detail2 results2 hlk2
  · exact hledger _ true rn qn2 detail2 results2

theorem fetch_sets_once_per_call_C8_witness :
    (discoverMoviesCore env0 true (some [1]) (some [2])
      (fun _ => none) [rmW 1]).2.ledgerCalls = 1 ∧
    (discoverMoviesCore
        { (discoverMoviesCore env0 true (some [1]) (some [2])
            (fun _ => none) [rmW 1]).2 with now := 60 }
        true (some [1]) (some [3]) (fun _ => none) []).2.radarrCalls
      = (discoverMoviesCore env0 true (some [1]) (some [2])
          (fun _ => none) [rmW 1]).2.radarrCalls :=
  have h := fetch_sets_once_per_call_C8 env0 true (some [1]) (some [2]) (some [3])
    [1] (fun _ => none) (fun _ => none) [rmW 1] [] 60 rfl (by decide)
  ⟨h.1, h.2.2.2.2.1⟩

/-- C10: identifier resolution caches success but not failure.  On a cold
per-item entry, a failed detail call writes nothing (so the next call for
that item attempts resolution again), while a successful call whose response
carries no identifier caches the empty identifier under the default TTL (so
later calls within the TTL reuse the empty result without a new detail
request).  The same asymmetry holds for the TV loop body. -/
theorem resolution_cache_asymmetry_C10 (existing requested : List Int)
    (detail : Int → Option MovieDetail) (detailTV : Int → Option (Option TVExt))
    (env envTV : Env) (m : RawMovie) (s : RawTV)
    (hmiss : env.cache.lookup env.now (CKey.movieExt m.id) = none)
    (hmissTV : envTV.cache.lookup envTV.now (CKey.tvExt s.id) = none) :
    (detail m.id = none →
      (enrichMovie existing requested detail env m).2.cache = env.cache ∧
      (enrichMovie existing requested detail env m).2.detailCalls
        = env.detailCalls + 1 ∧
      (enrichMovie existing requested detail
          (enrichMovie existing requested detail env m).2 m).2.detailCalls
        = env.detailCalls + 2) ∧
    (∀ d, detail m.id = some d → extractImdb d = "" →
      (enrichMovie existing requested detail env m).2.cache.items
          (CKey.movieExt m.id)
        = some ⟨.str "", env.now + env.cache.ttl⟩ ∧
      ∀ t2, t2 ≤ env.now + env.cache.ttl →
        (enrichMovie existing requested detail
            { (enrichMovie existing requested detail env m).2 with now := t2 }
            m).2.detailCalls
          = (enrichMovie existing requested detail env m).2.detailCalls ∧
        (enrichMovie existing requested detail
            { (enrichMovie existing requested detail env m).2 with now := t2 }
            m).1.imdbID
          = "") ∧
    (detailTV s.id = none →
      (enrichTV existing requested detailTV envTV s).2.cache = envTV.cache) ∧
    (detailTV s.id = some none →
      (enrichTV existing requested detailTV envTV s).2.cache.items
          (CKey.tvExt s.id)
        = some ⟨.tvIDs 0 "", envTV.now + envTV.cache.ttl⟩) := by
  refine ⟨fun hd => ?_, fun d hd hext => ?_, fun hd => ?_, fun hd => ?_⟩
  · simp only [enrichMovie, hmiss, hd]
    refine ⟨trivial, trivial, ?_⟩
    simp only [enrichMovie, hmiss, hd]
  · simp only [enrichMovie, hmiss, hd, hext]
    constructor
    · simp [Cache.set, Cache.setWithTTL]
    · intro t2 ht2
      have hlk2 : (({ env with
            detailCalls := env.detailCalls + 1 } : Env).cache.set env.now
              (CKey.movieExt m.id) (CVal.str "")).lookup t2 (CKey.movieExt m.id)
          = some (CVal.str "") :=
        lookup_set_eq _ _ _ _ _ ht2
      simp only [enrichMovie, hlk2]
      exact ⟨trivial, rfl⟩
  · simp only [enrichTV, hmissTV, hd]
  · simp only [enrichTV, hmissTV, hd, extractTV]
    simp [Cache.set, Cache.setWithTTL]

/-- Oracle for the C10 witness: the detail request always succeeds but its
response carries no identifier. -/
def emptyDetail : Int → Option MovieDetail :=
  fun _ => some { extImdb := some "", topImdb := none }

theorem resolution_cache_asymmetry_C10_witness :
    (enrichMovie [] [] (fun _ => none) env0 (rmW 1)).2.cache = env0.cache ∧
    (enrichMovie [] [] emptyDetail env0 (rmW 1)).2.cache.items
        (CKey.movieExt 1)
      = some ⟨.str "", 600⟩ :=
  have h1 := resolution_cache_asymmetry_C10 [] [] (fun _ => none)
    (fun _ => none) env0 env0 (rmW 1) (rtvW 1) rfl rfl
  have h2 := resolution_cache_asymmetry_C10 [] [] emptyDetail
    (fun _ => none) env0 env0 (rmW 1) (rtvW 1) rfl rfl
  ⟨(h1.1 rfl).1,
   (h2.2.1 { extImdb := some "", topImdb := none } rfl (by decide)).1⟩

end Requestarr
